import Mathlib

/-!
# PicoWeather firmware — verification of spec claims

Shallow embedding of the parts of the PicoWeather firmware (MicroPython)
that the spec claims C1–C10 are about, together with theorems settling
each claim.  Python integers are modelled as `Int`/`Nat` (with Python's
`%` on a positive modulus modelled by `Int.emod`), Python floats as exact
rationals `ℚ`, byte strings as `List Nat`, and fallible operations as
`Option`/`Except`.  Each definition mirrors one function of the source
tree; the file is organised per source module.
-/

namespace PicoWeather

/-! ## `drivers/time_driver.py` — `TimeDriver.get_timestamp` (manual branch)

The manual Unix-timestamp computation that `get_timestamp` falls through
to when neither the system wall clock nor an early return applies:
day count summed from 1970 with the leap-year rule, plus month lengths,
plus day-of-month − 1, then `days*86400 + h*3600 + m*60 + s`. -/

/-- Python `(y % 4 == 0 and y % 100 != 0) or (y % 400 == 0)`. -/
def isLeapYear (y : ℕ) : Bool :=
  (y % 4 == 0 && y % 100 != 0) || (y % 400 == 0)

/-- The `days_in_month` table of `get_timestamp`. -/
def days_in_month : List ℕ :=
  [31, 28, 31, 30, 31, 30, 31, 31, 30, 31, 30, 31]

/-- `for y in range(1970, year): days += 366 if leap(y) else 365`. -/
def yearDaysSince1970 (year : ℕ) : ℕ :=
  (List.range' 1970 (year - 1970)).foldl
    (fun acc y => acc + (if isLeapYear y then 366 else 365)) 0

/-- `for m in range(1, month): days += days_in_month[m-1] (+1 leap Feb)`. -/
def monthDays (year month : ℕ) : ℕ :=
  (List.range' 1 (month - 1)).foldl
    (fun acc m =>
      acc + days_in_month.getD (m - 1) 0 +
        (if m == 2 && isLeapYear year then 1 else 0)) 0

/-- Days since 1970-01-01 as computed by `get_timestamp` (`days += day - 1`). -/
def manualDays (year month : ℕ) (day : ℤ) : ℤ :=
  (yearDaysSince1970 year : ℤ) + (monthDays year month : ℤ) + day - 1

/-- The manual branch of `TimeDriver.get_timestamp`:
`days * 86400 + hour * 3600 + minute * 60 + second`. -/
def manualTimestamp (year month : ℕ) (day hour minute second : ℤ) : ℤ :=
  manualDays year month day * 86400 + hour * 3600 + minute * 60 + second

/-! ## `drivers/networking_driver.py` — `ESP8285WifiManager._send_at_command`

Only the final success classification of the accumulated response string
is modelled: `success = expected in response`, then the secondary
heuristic `if not success and ("OK" in response or "SEND OK" in
response): success = True`. -/

/-- `needle` occurs as a contiguous run of characters of `haystack`. -/
def charsInfix (needle : List Char) : List Char → Bool
  | [] => needle.isEmpty
  | c :: rest => needle.isPrefixOf (c :: rest) || charsInfix needle rest

/-- Python's substring test `needle in haystack` on `str`. -/
def pyInStr (needle haystack : String) : Bool :=
  charsInfix needle.toList haystack.toList

/-- Success classification at the end of `_send_at_command`. -/
def sendAtSuccess (expected response : String) : Bool :=
  let success := pyInStr expected response
  if !success && (pyInStr "OK" response || pyInStr "SEND OK" response) then
    true
  else
    success

/-! ## `drivers/input_driver.py` — `Button.check`

State carried between `check()` calls: `last_state` (raw pin level),
`pressed_time`, `long_pressed`, `press_count`.  `check` is evaluated
against the raw pin level and a monotonic millisecond clock
(`utime.ticks_diff(a, b)` is modelled as `a - b : ℤ`, exact on a
monotonic clock). -/

structure ButtonState where
  last_state : ℕ
  pressed_time : ℤ
  long_pressed : Bool
  press_count : ℕ
  deriving Repr, DecidableEq

/-- Initial state after `Button.initialize` on an idle pull-up input:
`last_state = pin.value() = 1`, the remaining fields as set by
`Button.__init__`. -/
def initButtonState : ButtonState :=
  { last_state := 1, pressed_time := 0, long_pressed := false,
    press_count := 0 }

/-- One `Button.check()` call, returning the emitted event (`""` when
none) and the successor state.  Mirrors the source exactly: the early
`return f"{name}_press"` and `return f"{name}_long"` paths skip the
trailing `self.last_state = current_state` assignment. -/
def buttonCheck (name : String) (pull_up : Bool) (debounce_ms long_press_ms : ℤ)
    (s : ButtonState) (current_state : ℕ) (current_time : ℤ) :
    String × ButtonState :=
  let is_pressed := if pull_up then current_state == 0 else current_state == 1
  let was_pressed := if pull_up then s.last_state == 0 else s.last_state == 1
  if is_pressed && !was_pressed then
    -- button just pressed; falls through to `self.last_state = current_state`
    ("", { s with pressed_time := current_time, long_pressed := false,
                  last_state := current_state })
  else if !is_pressed && was_pressed then
    -- button just released
    let press_duration := current_time - s.pressed_time
    if press_duration > debounce_ms && !s.long_pressed then
      -- early return: `last_state` is NOT updated
      (name ++ "_press", { s with press_count := s.press_count + 1 })
    else
      ("", { s with last_state := current_state })
  else if is_pressed && was_pressed then
    -- held: check for long press
    let press_duration := current_time - s.pressed_time
    if press_duration > long_press_ms && !s.long_pressed then
      -- early return: `last_state` is NOT updated (it already equals the
      -- pressed level here)
      (name ++ "_long", { s with long_pressed := true })
    else
      ("", { s with last_state := current_state })
  else
    ("", { s with last_state := current_state })

/-- Run successive `check()` calls over a list of `(raw level, time)`
samples, collecting the non-empty events in order. -/
def buttonRun (name : String) (pull_up : Bool) (debounce_ms long_press_ms : ℤ)
    (s : ButtonState) : List (ℕ × ℤ) → List String
  | [] => []
  | (lvl, t) :: rest =>
      let (ev, s') := buttonCheck name pull_up debounce_ms long_press_ms s lvl t
      (if ev == "" then [] else [ev]) ++
        buttonRun name pull_up debounce_ms long_press_ms s' rest

/-! ## `drivers/time_driver.py` — `TimeDriver.set_manual_time`

`set_manual_time` validates ranges, computes the weekday by Zeller's
congruence — destructively shifting its local `month`/`year` variables
when `month < 3` — and then writes `(year, month, day, weekday, hour,
minute, second, 0)` to the RTC and mirrors `year/month/day/...` into the
`manual_*` fields.  Python `//` and `%` on the (possibly negative)
Zeller sum are floor division and nonnegative remainder; every `//`
operand below is nonnegative, and `%` is modelled by `Int.emod`. -/

structure ManualTimeEffect where
  rtc_year : ℤ
  rtc_month : ℤ
  rtc_day : ℤ
  rtc_weekday : ℤ
  rtc_hour : ℤ
  rtc_minute : ℤ
  rtc_second : ℤ
  manual_year : ℤ
  manual_month : ℤ
  manual_day : ℤ
  manual_hour : ℤ
  manual_minute : ℤ
  manual_second : ℤ
  manual_time_set : Bool
  has_valid_time : Bool
  deriving Repr, DecidableEq

/-- `TimeDriver.set_manual_time(year, month, day, hour, minute, second)`:
`none` models `return False` after a failed range validation; `some e`
models `return True` with the RTC write and field updates `e`. -/
def set_manual_time (year month day hour minute second : ℤ) :
    Option ManualTimeEffect :=
  if ¬(2020 ≤ year ∧ year ≤ 2100) then none
  else if ¬(1 ≤ month ∧ month ≤ 12) then none
  else if ¬(1 ≤ day ∧ day ≤ 31) then none
  else if ¬(0 ≤ hour ∧ hour ≤ 23) then none
  else if ¬(0 ≤ minute ∧ minute ≤ 59) then none
  else if ¬(0 ≤ second ∧ second ≤ 59) then none
  else
    -- Zeller's congruence; `month`/`year` are the same local variables
    -- later written to the RTC and the `manual_*` fields.
    let month' := if month < 3 then month + 12 else month
    let year' := if month < 3 then year - 1 else year
    let century := year' / 100
    let year_in_century := year' % 100
    let weekday0 :=
      (day + (13 * (month' + 1)) / 5 + year_in_century +
        year_in_century / 4 + century / 4 - 2 * century).emod 7
    let weekday := (weekday0 + 1).emod 7
    some
      { rtc_year := year', rtc_month := month', rtc_day := day,
        rtc_weekday := weekday, rtc_hour := hour, rtc_minute := minute,
        rtc_second := second,
        manual_year := year', manual_month := month', manual_day := day,
        manual_hour := hour, manual_minute := minute,
        manual_second := second,
        manual_time_set := true, has_valid_time := true }

/-! ## `drivers/controller_driver.py` — `FMTransmitterRDA5807`

`set_frequency` / `set_volume` as read-modify-write register
transactions: the model takes the value of the prior `_read_reg` and
yields the 16-bit value handed to `_write_reg` together with the updated
cached field.  Python floats are modelled as exact rationals; `int()` on
a float is truncation toward zero (`pyTruncQ`). -/

/-- Python `int()` applied to a (rational-modelled) float: truncation
toward zero. -/
def pyTruncQ (x : ℚ) : ℤ :=
  if 0 ≤ x then ⌊x⌋ else ⌈x⌉

/-- `freq_mhz = max(88.0, min(108.0, freq_mhz))`. -/
def clampFreq (f : ℚ) : ℚ :=
  max 88 (min 108 f)

/-- `freq_int = int((freq_mhz - 88.0) * 10) + 0x1000` (on the clamped
frequency). -/
def freqChannel (f : ℚ) : ℤ :=
  pyTruncQ ((clampFreq f - 88) * 10) + 0x1000

/-- The channel offset alone: `int((freq_mhz - 88.0) * 10)` on the
clamped frequency, as a natural number. -/
def freqChannelOffset (f : ℚ) : ℕ :=
  (pyTruncQ ((clampFreq f - 88) * 10)).toNat

/-- The 16-bit value written to register `0x03`:
`reg03 = (reg03 & 0xFE00) | freq_int`. -/
def setFreqReg (reg03_old : ℕ) (f : ℚ) : ℕ :=
  (reg03_old &&& 0xFE00) ||| (freqChannel f).toNat

/-- `FMTransmitterRDA5807.set_frequency`: `none` models `return False`
when not initialized; `some (w, cached)` models a successful call that
writes `w` to register `0x03` and caches `cached` in `self.frequency`. -/
def set_frequency (isInit : Bool) (reg03_old : ℕ) (f : ℚ) :
    Option (ℕ × ℚ) :=
  if !isInit then none
  else some (setFreqReg reg03_old f, clampFreq f)

/-- `volume = max(0, min(15, volume))`. -/
def clampVolume (v : ℤ) : ℤ :=
  max 0 (min 15 v)

/-- The 16-bit value written to register `0x05`:
`reg05 = (reg05 & 0xFFF0) | volume`. -/
def setVolReg (reg05_old : ℕ) (v : ℤ) : ℕ :=
  (reg05_old &&& 0xFFF0) ||| (clampVolume v).toNat

/-- `FMTransmitterRDA5807.set_volume`: `none` models `return False` when
not initialized; `some (w, cached)` models a successful call that writes
`w` to register `0x05` and caches `cached` in `self.volume`. -/
def set_volume (isInit : Bool) (reg05_old : ℕ) (v : ℤ) :
    Option (ℕ × ℤ) :=
  if !isInit then none
  else some (setVolReg reg05_old v, clampVolume v)

/-! ### Bit-level helper lemmas -/

/-- The mask `0xFFF0` has exactly bits 4–15 set. -/
lemma testBit_mask_FFF0 (i : ℕ) :
    Nat.testBit 0xFFF0 i = (decide (4 ≤ i) && decide (i < 16)) := by
  rcases Nat.lt_or_ge i 16 with h | h
  · interval_cases i <;> decide
  · have h1 : Nat.testBit 0xFFF0 i = false :=
      Nat.testBit_eq_false_of_lt
        (lt_of_lt_of_le (by norm_num) (Nat.pow_le_pow_right (by norm_num) h))
    have h2 : ¬ i < 16 := by omega
    simp [h1, h2]

/-- The mask `0xFE00` has exactly bits 9–15 set. -/
lemma testBit_mask_FE00 (i : ℕ) :
    Nat.testBit 0xFE00 i = (decide (9 ≤ i) && decide (i < 16)) := by
  rcases Nat.lt_or_ge i 16 with h | h
  · interval_cases i <;> decide
  · have h1 : Nat.testBit 0xFE00 i = false :=
      Nat.testBit_eq_false_of_lt
        (lt_of_lt_of_le (by norm_num) (Nat.pow_le_pow_right (by norm_num) h))
    have h2 : ¬ i < 16 := by omega
    simp [h1, h2]

/-- `0x1000 = 2 ^ 12` has exactly bit 12 set. -/
lemma testBit_4096 (i : ℕ) :
    Nat.testBit 4096 i = decide (i = 12) := by
  rcases Nat.lt_or_ge i 16 with h | h
  · interval_cases i <;> decide
  · have h1 : Nat.testBit 4096 i = false :=
      Nat.testBit_eq_false_of_lt
        (lt_of_lt_of_le (by norm_num) (Nat.pow_le_pow_right (by norm_num) h))
    have h2 : i ≠ 12 := by omega
    simp [h1, h2]

set_option maxRecDepth 8192 in
/-- Adding a sub-512 offset to `0x1000` is a disjoint bitwise or. -/
lemma add_4096_eq_lor : ∀ off : ℕ, off < 512 → 4096 + off = 4096 ||| off := by
  decide

/-- A number below `2 ^ k` has every bit at position `≥ k` clear. -/
lemma testBit_eq_false_of_lt_pow {n k i : ℕ} (hn : n < 2 ^ k) (hk : k ≤ i) :
    Nat.testBit n i = false :=
  Nat.testBit_eq_false_of_lt
    (lt_of_lt_of_le hn (Nat.pow_le_pow_right (by norm_num) hk))

/-! ### Frequency-encoding helper lemmas -/

lemma clampFreq_ge (f : ℚ) : 88 ≤ clampFreq f :=
  le_max_left _ _

lemma clampFreq_le (f : ℚ) : clampFreq f ≤ 108 :=
  max_le (by norm_num) (min_le_left _ _)

lemma clampFreq_arg_nonneg (f : ℚ) : (0 : ℚ) ≤ (clampFreq f - 88) * 10 :=
  mul_nonneg (by have := clampFreq_ge f; linarith) (by norm_num)

/-- On the clamped frequency, `int()` truncation coincides with `floor`:
the argument is nonnegative. -/
lemma pyTruncQ_clamped (f : ℚ) :
    pyTruncQ ((clampFreq f - 88) * 10) = ⌊(clampFreq f - 88) * 10⌋ := by
  unfold pyTruncQ
  rw [if_pos (clampFreq_arg_nonneg f)]

lemma freqChannelOffset_nonneg (f : ℚ) :
    0 ≤ pyTruncQ ((clampFreq f - 88) * 10) := by
  rw [pyTruncQ_clamped]
  exact Int.le_floor.2 (by exact_mod_cast clampFreq_arg_nonneg f)

lemma freqChannelOffset_le (f : ℚ) : freqChannelOffset f ≤ 200 := by
  have h0 := freqChannelOffset_nonneg f
  have h200 : pyTruncQ ((clampFreq f - 88) * 10) ≤ 200 := by
    rw [pyTruncQ_clamped]
    have hle : (clampFreq f - 88) * 10 ≤ 200 := by
      have := clampFreq_le f; linarith
    have := Int.floor_le_floor hle
    simpa using this
  unfold freqChannelOffset
  omega

/-- The channel value written into the low bits of register `0x03` is
`0x1000` plus the sub-512 channel offset. -/
lemma freqChannel_toNat (f : ℚ) :
    (freqChannel f).toNat = 4096 + freqChannelOffset f := by
  have h0 := freqChannelOffset_nonneg f
  unfold freqChannel freqChannelOffset
  omega

/-! ## `drivers/display_driver.py` — `DisplayDriver.show_framebuffer`
(`st7567_spi` path)

The argument may be a `bytes`/`bytearray` (a list of byte values) or any
other Python object. -/

/-- A Python value reaching `show_framebuffer`: a raw byte buffer or any
non-bytes object (tagged arbitrarily). -/
inductive PyBufArg where
  | bytes (data : List ℕ)
  | nonBytes (tag : ℕ)
  deriving Repr, DecidableEq

/-- Modelled from the spec: the vendored ST7567 library's `show(buffer)`
accepts "the raw 1024-byte packed bitmap" (128×64 monochrome, 1024
bytes); any other buffer raises.  The library itself is a vendored
external dependency and is not part of the source tree. -/
def st7567Show (buf : List ℕ) : Except String Unit :=
  if buf.length = 1024 then Except.ok () else Except.error "invalid buffer"

/-- `DisplayDriver.show_framebuffer` on the `st7567_spi` path: the
`is_healthy` guard, the `isinstance(framebuffer, (bytes, bytearray))`
type check (logged rejection), and the `display.show` call whose raised
errors are caught into a logged `False`.  Returns the boolean result and
the log lines emitted on the failure paths. -/
def show_framebuffer (healthy : Bool) (framebuffer : PyBufArg) :
    Bool × List String :=
  if !healthy then (false, [])
  else
    match framebuffer with
    | .nonBytes _ =>
        (false, ["[DISPLAY] ST7567: Invalid buffer type, expected bytes/bytearray"])
    | .bytes data =>
        match st7567Show data with
        | .ok _ => (true, [])
        | .error _ => (false, ["[DISPLAY] Show framebuffer error"])

/-- The claim's acceptance predicate: exactly a 1024-byte raw buffer. -/
def isRaw1024 : PyBufArg → Bool
  | .bytes data => data.length == 1024
  | .nonBytes _ => false

/-! ## `utils/custom_font.py` — `CUSTOM_GLYPHS` and
`CustomFontManager.add_glyph`

The glyph table is a Python `dict` literal; a duplicated key (`'°'`
appears twice in the source) is resolved by the later entry, so lookup
returns the *last* binding of a character.  Rows are Python ints. -/

/-- The `CUSTOM_GLYPHS` dict literal, entry for entry in source order
(including the duplicated `'°'` key). -/
def CUSTOM_GLYPHS : List (Char × List ℤ) :=
  [ ('°', [0b00011000, 0b00100100, 0b01000010, 0b01000010,
           0b00100100, 0b00011000, 0b00000000, 0b00000000]),
    ('ã', [0b00011000, 0b00100100, 0b01111110, 0b10000001,
           0b10000001, 0b01111110, 0b00000000, 0b00000000]),
    ('á', [0b00001000, 0b00011000, 0b00100100, 0b01111110,
           0b10000001, 0b01111110, 0b00000000, 0b00000000]),
    ('â', [0b00100100, 0b01000010, 0b01111110, 0b10000001,
           0b10000001, 0b01111110, 0b00000000, 0b00000000]),
    ('é', [0b00001000, 0b00011000, 0b01111110, 0b10000001,
           0b01111110, 0b00000000, 0b00000000]),
    ('ê', [0b00100100, 0b01000010, 0b01111110, 0b10000001,
           0b01111110, 0b00000000, 0b00000000]),
    ('í', [0b00001000, 0b00011000, 0b00111100, 0b00001000,
           0b00001000, 0b01111100, 0b00000000, 0b00000000]),
    ('ó', [0b00001000, 0b00011000, 0b01111110, 0b10000001,
           0b10000001, 0b01111110, 0b00000000, 0b00000000]),
    ('ô', [0b00100100, 0b01000010, 0b01111110, 0b10000001,
           0b10000001, 0b01111110, 0b00000000, 0b00000000]),
    ('õ', [0b00011000, 0b00100100, 0b01111110, 0b10000001,
           0b10000001, 0b01111110, 0b00000000, 0b00000000]),
    ('ú', [0b00001000, 0b00011000, 0b10000001, 0b10000001,
           0b10000001, 0b01111110, 0b00000000, 0b00000000]),
    ('ç', [0b00000000, 0b01111100, 0b10000010, 0b10000000,
           0b10000010, 0b01111100, 0b00101000, 0b00010000]),
    ('♥', [0b00000000, 0b01100110, 0b11111111, 0b11111111,
           0b01111110, 0b00111100, 0b00011000, 0b00000000]),
    ('°', [0b00011000, 0b00100100, 0b00100100, 0b00011000,
           0b00000000, 0b00000000, 0b00000000, 0b00000000]),
    ('±', [0b00010000, 0b00010000, 0b11111110, 0b00010000,
           0b00010000, 0b00000000, 0b00000000]) ]

/-- Python `dict` lookup over a dict literal with possibly repeated
keys: the last binding wins. -/
def pyDictGet (entries : List (Char × List ℤ)) (c : Char) :
    Option (List ℤ) :=
  (entries.reverse.find? (fun e => e.1 == c)).map (·.2)

/-- The validation guard of `CustomFontManager.add_glyph`:
`len(glyph_data) == 8 and all(isinstance(row, int) and 0 <= row <= 255
for row in glyph_data)`. -/
def addGlyphValid (glyph_data : List ℤ) : Bool :=
  glyph_data.length == 8 &&
    glyph_data.all (fun row => decide (0 ≤ row) && decide (row ≤ 255))

/-- `CustomFontManager.add_glyph`: inserts only when the guard passes,
returning the success flag and the updated table. -/
def add_glyph (glyphs : List (Char × List ℤ)) (c : Char)
    (glyph_data : List ℤ) : Bool × List (Char × List ℤ) :=
  if addGlyphValid glyph_data then (true, glyphs ++ [(c, glyph_data)])
  else (false, glyphs)

/-! ## `utils/locale_manager.py` — `LocaleManager`

JSON-like text trees: inner nodes are string-keyed objects, leaves are
strings.  `get_display_text`/`get_console_text` walk a dotted key path
in the active tree; a `KeyError` (missing key) or `TypeError` (indexing
into a string) is caught and the walk is retried against the hardcoded
`ENGLISH_FALLBACK` tree; a second miss returns the literal key-path
string.  Substitution kwargs are not modelled (the claims pass none;
with no kwargs the `value.format` branch is not taken). -/

inductive JVal where
  | str (v : String)
  | obj (fields : List (String × JVal))

/-- Python `dict[key]` on a JSON object (keys are unique in the trees). -/
def jGet (fields : List (String × JVal)) (key : String) : Option JVal :=
  (fields.find? (fun e => e.1 == key)).map (·.2)

/-- `for key in keys: value = value[key]` — `none` models the caught
`KeyError`/`TypeError`. -/
def jWalk : JVal → List String → Option JVal
  | v, [] => some v
  | .str _, _ :: _ => none
  | .obj fields, k :: ks =>
      match jGet fields k with
      | some v => jWalk v ks
      | none => none

/-- Helper for `splitDot`: accumulates the current segment (reversed). -/
def splitDotAux : List Char → List Char → List (List Char)
  | [], acc => [acc.reverse]
  | c :: cs, acc =>
      if c = '.' then acc.reverse :: splitDotAux cs []
      else splitDotAux cs (c :: acc)

/-- Python `key_path.split('.')`. -/
def splitDot (s : String) : List String :=
  (splitDotAux s.toList []).map (fun l => String.mk l)

/-- The core of `get_display_text`/`get_console_text`: walk the active
tree, on any miss retry against the English fallback tree, and finally
return the literal key-path string. -/
def getLocaleText (fallback active : JVal) (key_path : String) : JVal :=
  let keys := splitDot key_path
  match jWalk active keys with
  | some v => v
  | none =>
      match jWalk fallback keys with
      | some v => v
      | none => .str key_path

/-- `ENGLISH_FALLBACK["display"]`, entry for entry from the source. -/
def ENGLISH_FALLBACK_display : JVal :=
  .obj
    [ ("units", .obj
        [ ("temperature", .str "°C"),
          ("humidity", .str "%"),
          ("pressure", .str "hPa"),
          ("frequency", .str "MHz") ]),
      ("formats", .obj
        [ ("date", .str "mm/dd/yyyy"),
          ("time", .str "HH:MM:SS"),
          ("datetime", .str "mm/dd/yyyy HH:MM"),
          ("decimal", .str "."),
          ("thousands", .str ",") ]),
      ("labels", .obj
        [ ("temperature", .str "Temperature"),
          ("humidity", .str "Humidity"),
          ("pressure", .str "Pressure"),
          ("frequency", .str "Frequency"),
          ("fm_radio", .str "FM Radio"),
          ("volume", .str "Volume"),
          ("mono", .str "Mono"),
          ("stereo", .str "Stereo"),
          ("muted", .str "Muted"),
          ("unmuted", .str "Active"),
          ("signal", .str "Signal"),
          ("wifi", .str "WiFi"),
          ("connected", .str "Connected"),
          ("disconnected", .str "Disconnected"),
          ("ip_address", .str "IP"),
          ("no_signal", .str "No Signal") ]),
      ("pages", .obj
        [ ("main", .str "Main"),
          ("weather", .str "Weather"),
          ("radio", .str "Radio"),
          ("network", .str "Network"),
          ("system", .str "System") ]),
      ("messages", .obj
        [ ("initializing", .str "Initializing..."),
          ("loading", .str "Loading..."),
          ("ready", .str "Ready"),
          ("error", .str "Error"),
          ("no_data", .str "No Data"),
          ("connecting", .str "Connecting..."),
          ("synchronizing", .str "Synchronizing...") ]) ]

set_option maxHeartbeats 2000000 in
/-- `ENGLISH_FALLBACK["console"]`, entry for entry from the source. -/
def ENGLISH_FALLBACK_console : JVal :=
  .obj
    [ ("messages", .obj
        [ ("main_loaded", .str "[MAIN] Configuration loaded for {board}"),
          ("system_startup", .str "[MAIN] Initializing system components..."),
          ("init_display", .str "[INIT] Initializing DISPLAY..."),
          ("init_display_hardware", .str "[INIT] Initializing DISPLAY HARDWARE..."),
          ("init_networking", .str "[INIT] Initializing NETWORKING..."),
          ("init_ntp", .str "[INIT] Initializing NTP..."),
          ("init_sensors", .str "[INIT] Initializing SENSORS..."),
          ("init_controllers", .str "[INIT] Initializing CONTROLLERS..."),
          ("init_buttons", .str "[INIT] Initializing BUTTONS..."),
          ("ok", .str "OK"),
          ("fail", .str "FAIL"),
          ("skip", .str "SKIPPED"),
          ("status_ok", .str "OK"),
          ("status_fail", .str "FAIL ({error})"),
          ("status_skip", .str "SKIPPED ({reason})"),
          ("display_driver_ready", .str "[INIT] Display driver ready for framebuffer reception"),
          ("display_showing_status", .str "[INIT] Display showing initialization status"),
          ("display_update_success", .str "[INIT] Display update successful"),
          ("display_update_failed", .str "[INIT] Display update failed"),
          ("wifi_initialized", .str "[WIFI] ESP8285WifiManager ready"),
          ("wifi_connecting", .str "[WIFI] Connection attempt {attempt}/{max_attempts}"),
          ("wifi_connected", .str "[WIFI] Connection successful"),
          ("wifi_already_connected", .str "[WIFI] Already connected to configured network: {ssid}"),
          ("wifi_using_existing", .str "[WIFI] Using existing connection - IP: {ip}"),
          ("wifi_connection_lost", .str "[WIFI] Connection lost"),
          ("wifi_connection_restored", .str "[WIFI] Connection restored"),
          ("wifi_time_sync", .str "[WIFI] Time synchronized successfully"),
          ("time_has_valid_time", .str "[TIME] RTC has valid time: {datetime}"),
          ("time_driver_init", .str "[TIME] Time driver initialized, timezone: {timezone}"),
          ("sensors_init", .str "[SENSORS] {sensor} initialized at {address}"),
          ("sensors_reading", .str "[SENSORS] Reading {count} sensors"),
          ("sensors_first_read", .str "[SENSORS] First successful read: {data}"),
          ("sensors_sync_updated", .str "[SENSORS_SYNC] Updated: {data}"),
          ("controller_fm_detected", .str "[CONTROLLER] FM Transmitter detected: {detected}"),
          ("controller_fm_init", .str "[CONTROLLER] FM Transmitter initialized successfully"),
          ("input_button_init", .str "[INPUT] Button {button} initialized on pin {pin}"),
          ("input_buttons_count", .str "[INPUT] {count} buttons initialized"),
          ("input_callback_registered", .str "[INPUT] Callback registered for {button}"),
          ("main_callback_registered", .str "[MAIN] Callback registered for {button} button"),
          ("main_init_sensor_cache", .str "[MAIN] Initializing sensor cache synchronously..."),
          ("main_controller_data_init", .str "[MAIN] Controller data initialized: {data}"),
          ("main_init_drivers_failed", .str "[MAIN] Failed to initialize drivers"),
          ("main_error_startup", .str "[MAIN] Error during system startup: {error}"),
          ("main_loop_error", .str "[MAIN] Main loop error: {error}"),
          ("main_too_many_errors", .str "[MAIN] Too many errors, entering console mode"),
          ("main_entering_console", .str "[MAIN] KeyboardInterrupt received - entering console mode"),
          ("sensors_read_error", .str "[SENSORS] Read error: {error}"),
          ("sensors_sync_read_error", .str "[SENSORS] Sync read error: {error}"),
          ("time_update_error", .str "[TIME] Update error: {error}"),
          ("display_update_error", .str "[DISPLAY] Update error: {error}"),
          ("display_show_error", .str "[DISPLAY] Failed to show framebuffer"),
          ("wifi_check_error", .str "[WIFI] Check error: {error}"),
          ("time_sync_error", .str "[TIME] Sync error: {error}"),
          ("button_event", .str "[BUTTON] {action} (DisplayManager)"),
          ("button_display_unavailable", .str "[BUTTON] DisplayManager not available"),
          ("button_toggle_mute", .str "[BUTTON] Mute toggled to {state}"),
          ("button_toggle_mute_error", .str "[BUTTON] Toggle mute error: {error}"),
          ("input_events", .str "[INPUT] Events: {events}"),
          ("init_complete", .str "INITIALIZATION COMPLETE"),
          ("init_status_lines", .str "INITIALIZING..."),
          ("fatal_startup_failed", .str "[FATAL] System startup failed: {error}"),
          ("fatal_console_failed", .str "[FATAL] Console mode failed: {error}"),
          ("fatal_resetting", .str "[FATAL] Resetting system..."),
          ("fatal_attempting_console", .str "[FATAL] Attempting console mode..."),
          ("console_mode_error", .str "[MAIN] Console mode error: {error}"),
          ("init_failed_sensor_cache", .str "[INIT] Failed to initialize sensor cache"),
          ("init_time_data", .str "[INIT] Time data: {time} {date}"),
          ("init_time_data_fail", .str "[INIT] Time data: FAIL ({error})"),
          ("button_events", .str "[BUTTON] {action}"),
          ("main_console", .str "[MAIN] Entering console mode...") ]),
      ("menu", .obj
        [ ("main_menu", .str "=== PicoWeather Console Menu ==="),
          ("sensor_menu", .str "--- Sensor Commands ---"),
          ("display_menu", .str "--- Display Commands ---"),
          ("radio_menu", .str "--- Radio Commands ---"),
          ("network_menu", .str "--- Network Commands ---"),
          ("system_menu", .str "--- System Commands ---"),
          ("exit", .str "Exit console"),
          ("back_to_main", .str "Back to main menu"),
          ("read_sensors", .str "Read all sensors"),
          ("read_temperature", .str "Read temperature"),
          ("read_humidity", .str "Read humidity"),
          ("read_pressure", .str "Read pressure"),
          ("show_status", .str "Show display status"),
          ("clear_display", .str "Clear display"),
          ("refresh_display", .str "Refresh display"),
          ("show_info", .str "Show radio info"),
          ("tune_frequency", .str "Tune frequency"),
          ("set_volume", .str "Set volume"),
          ("toggle_mute", .str "Toggle mute"),
          ("scan_stations", .str "Scan stations"),
          ("wifi_status", .str "WiFi status"),
          ("wifi_connect", .str "Connect to WiFi"),
          ("wifi_disconnect", .str "Disconnect WiFi"),
          ("sync_time", .str "Sync time with NTP"),
          ("show_time", .str "Show current time"),
          ("run_diagnostics", .str "Run full diagnostics"),
          ("reboot_system", .str "Reboot system"),
          ("show_config", .str "Show configuration"),
          ("invalid_option", .str "Invalid option"),
          ("choose_option", .str "Choose an option: ") ]),
      ("prompts", .obj
        [ ("enter_frequency", .str "Enter frequency (MHz): "),
          ("enter_volume", .str "Enter volume (0-15): "),
          ("enter_ssid", .str "Enter SSID: "),
          ("enter_password", .str "Enter password: "),
          ("confirm_reboot", .str "Are you sure you want to reboot? (y/N): ") ]),
      ("responses", .obj
        [ ("temperature_reading", .str "Temperature: {value}°C"),
          ("humidity_reading", .str "Humidity: {value}%"),
          ("pressure_reading", .str "Pressure: {value} hPa"),
          ("frequency_set", .str "Frequency set to {value} MHz"),
          ("volume_set", .str "Volume set to {value}"),
          ("muted", .str "Radio muted"),
          ("unmuted", .str "Radio unmuted"),
          ("wifi_connected", .str "Connected to {ssid}"),
          ("wifi_disconnected", .str "Disconnected from WiFi"),
          ("time_synced", .str "Time synchronized: {time}"),
          ("system_rebooting", .str "System rebooting..."),
          ("operation_cancelled", .str "Operation cancelled") ]),
      ("errors", .obj
        [ ("command_not_found", .str "Command not found: {command}"),
          ("invalid_frequency", .str "Invalid frequency. Must be between {min} and {max} MHz"),
          ("invalid_volume", .str "Invalid volume. Must be between 0 and 15"),
          ("sensor_error", .str "Sensor error: {error}"),
          ("display_error", .str "Display error: {error}"),
          ("radio_error", .str "Radio error: {error}"),
          ("network_error", .str "Network error: {error}"),
          ("time_error", .str "Time error: {error}"),
          ("system_error", .str "System error: {error}") ]) ]

/-- `get_display_text` (kwargs-free): the active tree is
`self.display_data`; the retry tree is `ENGLISH_FALLBACK["display"]`. -/
def get_display_text (display_data : JVal) (key_path : String) : JVal :=
  getLocaleText ENGLISH_FALLBACK_display display_data key_path

/-- `get_console_text` (kwargs-free): the active tree is
`self.console_data`; the retry tree is `ENGLISH_FALLBACK["console"]`. -/
def get_console_text (console_data : JVal) (key_path : String) : JVal :=
  getLocaleText ENGLISH_FALLBACK_console console_data key_path

/-! ### Theorems -/

/-- **C8** — Locale fallback chain: the text lookup walks the dotted key
path in the active tree, retries identically against the hardcoded
English tree on any miss, and returns the literal key-path string as the
final fallback — it is a total function, so no error escapes.  With the
locale JSON file missing the active display tree *is*
`ENGLISH_FALLBACK["display"]`, and `"labels.temperature"` then yields
the English string `"Temperature"`; a key absent from both the active
and English trees comes back as the dotted key string unchanged. -/
theorem C8_locale_fallback :
    (∀ fb active : JVal, ∀ p v, jWalk active (splitDot p) = some v →
      getLocaleText fb active p = v) ∧
    (∀ fb active : JVal, ∀ p v, jWalk active (splitDot p) = none →
      jWalk fb (splitDot p) = some v → getLocaleText fb active p = v) ∧
    (∀ fb active : JVal, ∀ p, jWalk active (splitDot p) = none →
      jWalk fb (splitDot p) = none →
      getLocaleText fb active p = .str p) ∧
    get_display_text ENGLISH_FALLBACK_display "labels.temperature" =
      .str "Temperature" ∧
    get_display_text ENGLISH_FALLBACK_display "labels.boiling_point" =
      .str "labels.boiling_point" ∧
    get_console_text ENGLISH_FALLBACK_console "menu.exit" =
      .str "Exit console" := by
  refine ⟨?_, ?_, ?_, by rfl, by rfl, by rfl⟩
  · intro fb active p v h
    simp [getLocaleText, h]
  · intro fb active p v h h'
    simp [getLocaleText, h, h']
  · intro fb active p h h'
    simp [getLocaleText, h, h']

/-- Witness for C8: a hit in the active tree takes priority; a miss in
the active tree falls back to English; a miss in both returns the key
path. -/
theorem C8_witness :
    getLocaleText ENGLISH_FALLBACK_display
      (JVal.obj [("labels", .obj [("temperature", .str "Temperatura")])])
      "labels.temperature" = .str "Temperatura" ∧
    getLocaleText ENGLISH_FALLBACK_display (JVal.obj [])
      "labels.temperature" = .str "Temperature" ∧
    getLocaleText ENGLISH_FALLBACK_display (JVal.obj [])
      "labels.boiling_point" = .str "labels.boiling_point" :=
  ⟨C8_locale_fallback.1 _ _ _ _ (by rfl),
    C8_locale_fallback.2.1 _ _ _ _ (by rfl) (by rfl),
    C8_locale_fallback.2.2.1 _ _ _ (by rfl) (by rfl)⟩

/-- **C9** — ST7567 framebuffer input contract: on the `st7567_spi` path
(healthy driver), `show_framebuffer` returns `true` exactly on a
1024-byte raw byte buffer; every other input — wrong-size byte buffers
and non-bytes objects alike — yields `false` together with a logged
failure line, and the function is total (no error escapes its
boundary). -/
theorem C9_show_framebuffer (fb : PyBufArg) :
    ((show_framebuffer true fb).1 = true ↔ isRaw1024 fb = true) ∧
    ((show_framebuffer true fb).1 = false →
      (show_framebuffer true fb).2 ≠ []) := by
  cases fb with
  | nonBytes tag => simp [show_framebuffer, isRaw1024]
  | bytes data =>
      by_cases h : data.length = 1024 <;>
        simp [show_framebuffer, st7567Show, isRaw1024, h]

/-- Witness for C9: a non-bytes object is rejected with a log line. -/
theorem C9_witness :
    (show_framebuffer true (PyBufArg.nonBytes 0)).1 = false ∧
    (show_framebuffer true (PyBufArg.nonBytes 0)).2 ≠ [] :=
  ⟨by decide, (C9_show_framebuffer (PyBufArg.nonBytes 0)).2 (by decide)⟩

/-- **C10** — The glyph-table well-formedness invariant fails on the
code: the static `CUSTOM_GLYPHS` entries for `'é'`, `'ê'` and `'±'`
have only 7 rows, not the 8 required by the invariant (and by the
module's own "8 bytes per glyph" comment); indeed `add_glyph`'s own
validation rejects the very 7-row `'±'` bitmap stored in the table. -/
theorem C10_glyph_table_rows :
    (pyDictGet CUSTOM_GLYPHS 'é').map List.length = some 7 ∧
    (pyDictGet CUSTOM_GLYPHS 'ê').map List.length = some 7 ∧
    (pyDictGet CUSTOM_GLYPHS '±').map List.length = some 7 ∧
    addGlyphValid [0b00010000, 0b00010000, 0b11111110, 0b00010000,
      0b00010000, 0b00000000, 0b00000000] = false ∧
    (add_glyph CUSTOM_GLYPHS '±' [0b00010000, 0b00010000, 0b11111110,
      0b00010000, 0b00010000, 0b00000000, 0b00000000]).1 = false := by
  refine ⟨by decide, by decide, by decide, by decide, by decide⟩

/-- **C1** — Button event exactness fails on the code: for the single
physical press held 100 ms (inside the 50 ms–2000 ms window), sampled by
`check()` at t=0 (pressed), t=100 (released) and t=120 (still released),
the release-time `return` skips the `last_state` update, so the
`"<name>_press"` event is emitted twice — at t=100 and again at t=120 —
contradicting "no event is ever emitted twice for a single physical
press" / "exactly one press event".  (Taking further released samples
would keep re-emitting it.) -/
theorem C1_button_double_press_event :
    buttonRun "b" true 50 2000 initButtonState [(0, 0), (1, 100), (1, 120)] =
      ["b_press", "b_press"] ∧
    (buttonRun "b" true 50 2000 initButtonState
        [(0, 0), (1, 100), (1, 120)]).count "b_press" = 2 := by
  refine ⟨by decide, by decide⟩

/-- **C2** — `set_manual_time` fails on the code for January (and
February): on input (2024, 1, 1, 12, 0, 0) the Zeller month/year shift
leaks into the RTC write and the `manual_*` mirror, so the clock is
written with year 2023 and month 13 and those values — not the given
ones — are mirrored, contradicting "writes the clock with exactly the
given year, month, ... for every month, including January and
February". -/
theorem C2_set_manual_time_january :
    set_manual_time 2024 1 1 12 0 0 =
      some
        { rtc_year := 2023, rtc_month := 13, rtc_day := 1,
          rtc_weekday := 3, rtc_hour := 12, rtc_minute := 0,
          rtc_second := 0,
          manual_year := 2023, manual_month := 13, manual_day := 1,
          manual_hour := 12, manual_minute := 0, manual_second := 0,
          manual_time_set := true, has_valid_time := true } ∧
    (set_manual_time 2024 1 1 12 0 0).map (·.manual_year) ≠ some 2024 ∧
    (set_manual_time 2024 1 1 12 0 0).map (·.manual_month) ≠ some 1 := by
  refine ⟨by decide, by decide, by decide⟩

/-- **C3 (counterexample)** — With prior register value `0x0000` and input
frequency 100.5, `set_frequency` writes `0x107D = 4221`, whose bit 12 is
set although bit 12 of the previously read value is clear: the upper 7
bits are *not* all preserved by the read-modify-write, because the
channel value OR-ed in carries `0x1000`. -/
theorem C3_counterexample :
    set_frequency true 0 (201 / 2) = some (4221, 201 / 2) ∧
    Nat.testBit 4221 12 = true ∧
    Nat.testBit 0 12 = false := by
  refine ⟨?_, by decide, by decide⟩
  have h1 : freqChannel (201 / 2) = 4221 := by
    norm_num [freqChannel, pyTruncQ, clampFreq]
  have h2 : clampFreq (201 / 2) = 201 / 2 := by
    norm_num [clampFreq]
  have h3 : setFreqReg 0 (201 / 2) = 4221 := by
    rw [setFreqReg, h1]; decide
  show some (setFreqReg 0 (201 / 2), clampFreq (201 / 2)) =
    some (4221, 201 / 2)
  rw [h3, h2]

/-- **C3 (amended)** — Register `0x03` frame property as the code
actually behaves: after a successful `set_frequency`, the written value
is the prior value masked with `0xFE00` OR-ed with the channel value, so
bit 12 is always set (the `0x1000` of the channel value), every other
bit of the upper 7 (bits 9–11 and 13–15) equals that bit of the
previously read value, and the low 9 bits hold the channel offset
`int((clamped − 88.0) · 10)`, which is at most 200. -/
theorem C3_reg03_frame (old : ℕ) (f : ℚ) (hold : old < 2 ^ 16) :
    set_frequency true old f = some (setFreqReg old f, clampFreq f) ∧
    (setFreqReg old f).testBit 12 = true ∧
    (∀ i, 9 ≤ i → i ≠ 12 → (setFreqReg old f).testBit i = old.testBit i) ∧
    (∀ i, i < 9 → (setFreqReg old f).testBit i =
      (freqChannelOffset f).testBit i) ∧
    freqChannelOffset f ≤ 200 := by
  have hoff : freqChannelOffset f ≤ 200 := freqChannelOffset_le f
  have hreg : setFreqReg old f =
      (old &&& 0xFE00) ||| (4096 ||| freqChannelOffset f) := by
    unfold setFreqReg
    rw [freqChannel_toNat f, add_4096_eq_lor _ (by omega)]
  have hoffbit : ∀ i, 9 ≤ i → (freqChannelOffset f).testBit i = false :=
    fun i hi => testBit_eq_false_of_lt_pow (by omega : freqChannelOffset f < 2 ^ 9) hi
  refine ⟨rfl, ?_, ?_, ?_, hoff⟩
  · rw [hreg]
    simp [Nat.testBit_lor, testBit_mask_FE00, testBit_4096]
  · intro i h9 h12
    rcases Nat.lt_or_ge i 16 with h16 | h16
    · rw [hreg]
      simp only [Nat.testBit_lor, Nat.testBit_land, testBit_mask_FE00,
        testBit_4096, hoffbit i h9]
      simp [h9, h12, h16]
    · have ho : old.testBit i = false := testBit_eq_false_of_lt_pow hold h16
      rw [hreg]
      simp only [Nat.testBit_lor, Nat.testBit_land, testBit_mask_FE00,
        testBit_4096, hoffbit i h9, ho]
      have h12' : i ≠ 12 := by omega
      simp [h12', h16]
  · intro i h9
    rw [hreg]
    simp only [Nat.testBit_lor, Nat.testBit_land, testBit_mask_FE00,
      testBit_4096]
    have e1 : ¬ 9 ≤ i := by omega
    have e2 : i ≠ 12 := by omega
    simp [e1, e2]

/-- Witness for C3: the amended frame property applied at prior register
value `0x8A00` and frequency 100.5. -/
theorem C3_witness :
    (0x8A00 : ℕ) < 2 ^ 16 ∧ (setFreqReg 0x8A00 (201 / 2)).testBit 12 = true :=
  ⟨by decide, (C3_reg03_frame 0x8A00 (201 / 2) (by decide)).2.1⟩

/-- **C4** — Frequency encoding: `set_frequency` clamps its input to
[88.0, 108.0] (leaving in-range inputs unchanged), the channel value is
`floor((clamped − 88.0) · 10) + 0x1000`, the inputs 100.5 / 80.0 / 120.0
yield 4221 / 4096 / 4296 respectively, and on success the cached
frequency field equals the clamped value. -/
theorem C4_frequency_encoding (f : ℚ) :
    88 ≤ clampFreq f ∧ clampFreq f ≤ 108 ∧
    (88 ≤ f → f ≤ 108 → clampFreq f = f) ∧
    freqChannel f = ⌊(clampFreq f - 88) * 10⌋ + 4096 ∧
    freqChannel (201 / 2) = 4221 ∧
    clampFreq 80 = 88 ∧ freqChannel 80 = 4096 ∧
    clampFreq 120 = 108 ∧ freqChannel 120 = 4296 ∧
    (∀ old : ℕ, set_frequency true old f =
      some (setFreqReg old f, clampFreq f)) := by
  refine ⟨clampFreq_ge f, clampFreq_le f, ?_, ?_,
    by norm_num [freqChannel, pyTruncQ, clampFreq],
    by norm_num [clampFreq],
    by norm_num [freqChannel, pyTruncQ, clampFreq],
    by norm_num [clampFreq],
    by norm_num [freqChannel, pyTruncQ, clampFreq],
    fun old => rfl⟩
  · intro h88 h108
    unfold clampFreq
    rw [min_eq_right h108, max_eq_right h88]
  · unfold freqChannel
    rw [pyTruncQ_clamped]

/-- Witness for C4: the in-range input 100.5 is left unchanged by the
clamp. -/
theorem C4_witness :
    (88 : ℚ) ≤ 201 / 2 ∧ (201 / 2 : ℚ) ≤ 108 ∧ clampFreq (201 / 2) = 201 / 2 :=
  ⟨by norm_num, by norm_num,
    (C4_frequency_encoding (201 / 2)).2.2.1 (by norm_num) (by norm_num)⟩

/-- **C5** — Volume clamping and register preservation: `set_volume`
clamps its integer input to [0, 15] (20 ↦ 15, −3 ↦ 0), and the 16-bit
value written to register `0x05` has its low 4 bits equal to the clamped
volume and its upper 12 bits (and all higher positions) equal to those
bits of the previously read register value. -/
theorem C5_volume (old : ℕ) (v : ℤ) (hold : old < 2 ^ 16) :
    clampVolume 20 = 15 ∧ clampVolume (-3) = 0 ∧
    0 ≤ clampVolume v ∧ clampVolume v ≤ 15 ∧
    set_volume true old v = some (setVolReg old v, clampVolume v) ∧
    (∀ i, i < 4 → (setVolReg old v).testBit i =
      (clampVolume v).toNat.testBit i) ∧
    (∀ i, 4 ≤ i → (setVolReg old v).testBit i = old.testBit i) := by
  have hv0 : 0 ≤ clampVolume v := le_max_left _ _
  have hv15 : clampVolume v ≤ 15 := max_le (by norm_num) (min_le_left _ _)
  have hvn : (clampVolume v).toNat < 2 ^ 4 := by
    have : (2 : ℕ) ^ 4 = 16 := by norm_num
    omega
  refine ⟨by decide, by decide, hv0, hv15, rfl, ?_, ?_⟩
  · intro i h4
    unfold setVolReg
    simp only [Nat.testBit_lor, Nat.testBit_land, testBit_mask_FFF0]
    have e1 : ¬ 4 ≤ i := by omega
    simp [e1]
  · intro i h4
    unfold setVolReg
    have hvbit : (clampVolume v).toNat.testBit i = false :=
      testBit_eq_false_of_lt_pow hvn h4
    rcases Nat.lt_or_ge i 16 with h16 | h16
    · simp only [Nat.testBit_lor, Nat.testBit_land, testBit_mask_FFF0, hvbit]
      simp [h4, h16]
    · have ho : old.testBit i = false := testBit_eq_false_of_lt_pow hold h16
      simp only [Nat.testBit_lor, Nat.testBit_land, testBit_mask_FFF0, hvbit, ho]
      simp [h16]

/-- Witness for C5: `set_volume(20)` against prior register value
`0xABC7` clamps to 15. -/
theorem C5_witness :
    (0xABC7 : ℕ) < 2 ^ 16 ∧ clampVolume 20 = 15 :=
  ⟨by decide, (C5_volume 0xABC7 20 (by decide)).1⟩

/-- **C6** — Manual Unix-timestamp calculation: when `get_timestamp` falls
through to the manual computation, the date-time 2021-01-01 00:00:00
yields exactly 18 628 days since 1970-01-01, hence the timestamp
1 609 459 200 = 18 628 × 86 400. -/
theorem C6_manual_timestamp_2021 :
    manualDays 2021 1 1 = 18628 ∧
    manualTimestamp 2021 1 1 0 0 0 = 1609459200 ∧
    manualTimestamp 2021 1 1 0 0 0 = 18628 * 86400 := by
  refine ⟨by decide, by decide, by decide⟩

/-- **C7** — AT-command success heuristic: the exchange is classified a
success exactly when the expected token occurs in the accumulated
response, or `"OK"` or `"SEND OK"` occurs in it; in particular a response
containing `"SEND OK"` but not the specifically expected token is
classified as success. -/
theorem C7_at_command_success (expected response : String) :
    (sendAtSuccess expected response =
      (pyInStr expected response || pyInStr "OK" response ||
        pyInStr "SEND OK" response)) ∧
    (pyInStr "SEND OK" response = true → pyInStr expected response = false →
      sendAtSuccess expected response = true) := by
  constructor
  · unfold sendAtSuccess
    cases h1 : pyInStr expected response <;>
      cases h2 : pyInStr "OK" response <;>
        cases h3 : pyInStr "SEND OK" response <;> simp [h1, h2, h3]
  · intro h3 h1
    unfold sendAtSuccess
    simp [h1, h3]

/-- Witness for C7: the concrete response `"AT+CIPSEND\r\nSEND OK\r\n"`
contains `"SEND OK"` but not the expected token `">"` and is classified a
success. -/
theorem C7_witness :
    pyInStr "SEND OK" "AT+CIPSEND\r\nSEND OK\r\n" = true ∧
    pyInStr ">" "AT+CIPSEND\r\nSEND OK\r\n" = false ∧
    sendAtSuccess ">" "AT+CIPSEND\r\nSEND OK\r\n" = true :=
  ⟨by decide, by decide,
    (C7_at_command_success ">" "AT+CIPSEND\r\nSEND OK\r\n").2 (by decide)
      (by decide)⟩

end PicoWeather
